import Mathlib

/-!
Verification development for the corruption-evidence analysis engine of
`tools/analyze_evidence.py` (class `EvidenceAnalyzer`).

The engine consumes one JSON-like diagnostic snapshot and produces a report
with findings, a corruption score, an assessment label and recommendations.
We embed Python/JSON values as `PyVal`, and each method of `EvidenceAnalyzer`
as a Lean function.  Python attribute errors and type errors (raised e.g. by
calling `.get` on a non-dict) are modelled with `Except String`; the mutable
fields `self.findings` / `self.corruption_score` are threaded explicitly.
The wall-clock timestamp written into the report is an input parameter.
-/

/-- A Python/JSON value as produced by `json.load`. -/
inductive PyVal where
  | none
  | bool (b : Bool)
  | int (n : Int)
  | str (s : String)
  | list (elems : List PyVal)
  | dict (entries : List (String × PyVal))

/-- Python truthiness of a value (`if v:`). -/
def PyVal.truthy : PyVal → Bool
  | .none => false
  | .bool b => b
  | .int n => n != 0
  | .str s => !s.isEmpty
  | .list xs => !xs.isEmpty
  | .dict kvs => !kvs.isEmpty

/-- First value stored under key `k` of an association list (dict entries). -/
def lookupKey (entries : List (String × PyVal)) (k : String) : Option PyVal :=
  (entries.find? (fun p => p.1 == k)).map Prod.snd

/-- Python `obj.get(key, default)`: AttributeError unless `obj` is a dict. -/
def PyVal.attrGet (v : PyVal) (k : String) (dflt : PyVal) : Except String PyVal :=
  match v with
  | .dict entries => .ok ((lookupKey entries k).getD dflt)
  | _ => .error "AttributeError"

/-- Python `obj.items()`: AttributeError unless `obj` is a dict. -/
def PyVal.dictItems (v : PyVal) : Except String (List (String × PyVal)) :=
  match v with
  | .dict entries => .ok entries
  | _ => .error "AttributeError"

/-- Python `v == lit` for a string literal `lit`: equal strings only, never an
error (comparison between distinct types is `False`). -/
def pyEqStr (v : PyVal) (lit : String) : Bool :=
  match v with
  | .str s => s == lit
  | _ => false

/-- Python iteration `for x in v`: lists yield elements, strings yield
one-character strings, dicts yield their keys; other values raise TypeError. -/
def pyIter (v : PyVal) : Except String (List PyVal) :=
  match v with
  | .list xs => .ok xs
  | .str s => .ok (s.data.map (fun c => .str (String.mk [c])))
  | .dict entries => .ok (entries.map (fun p => .str p.1))
  | _ => .error "TypeError"

/-- Whether `pat` occurs as a contiguous substring of the character list `s`. -/
def charsHaveSub (pat : List Char) : List Char → Bool
  | [] => pat.isEmpty
  | c :: rest => pat.isPrefixOf (c :: rest) || charsHaveSub pat rest

/-- Whether `pat` occurs as a substring of `s` (Python `pat in s` on strings). -/
def strHasSub (s pat : String) : Bool :=
  charsHaveSub pat.data s.data

/-- Total part of Python `pat in v` for a string literal `pat`. -/
def pyContainsB (pat : String) (v : PyVal) : Bool :=
  match v with
  | .str s => strHasSub s pat
  | .list xs => xs.any (fun x => pyEqStr x pat)
  | .dict entries => entries.any (fun p => p.1 == pat)
  | _ => false

/-- Python `pat in v`: substring test on strings, membership on lists and
dicts, TypeError otherwise. -/
def pyContains (pat : String) (v : PyVal) : Except String Bool :=
  match v with
  | .str _ => .ok (pyContainsB pat v)
  | .list _ => .ok (pyContainsB pat v)
  | .dict _ => .ok (pyContainsB pat v)
  | _ => .error "TypeError"

/-- One entry of the epoch-timestamp evidence list: the dict
`{service, account, creation_date, modification_date}` built in
`analyze_timestamps`. -/
structure EpochItem where
  service : PyVal
  account : PyVal
  creation_date : PyVal
  modification_date : PyVal

/-- One issue dict as appended to `result["issues"]` by the rules.  The four
issue shapes share `type`, `description`, `severity`, `evidence`; the
shape-specific keys are carried as `Option` fields. -/
structure Issue where
  type : String
  description : String
  affected_views : Option (List String)
  items : Option (List EpochItem)
  last_backup : Option PyVal
  validation_performed : Option PyVal
  severity : String
  evidence : String

/-- One per-rule result dict `{name, issues, severity}`. -/
structure RuleResult where
  name : String
  issues : List Issue
  severity : String

/-- The issue emitted when `circle_status == "Error"`. -/
def circleIssue : Issue :=
  { type := "circle_status_error"
    description := "circle_status is \x27Error\x27 - indicates keychain sync failure"
    affected_views := Option.none
    items := Option.none
    last_backup := Option.none
    validation_performed := Option.none
    severity := "high"
    evidence := "CloudCompromise.md Finding 1, line 115" }

/-- The issue emitted when some PCS views have state `"unknown"`. -/
def viewIssue (unknown_views : List String) : Issue :=
  { type := "unknown_pcs_views"
    description := toString unknown_views.length ++ " PCS views showing \x27unknown\x27 status"
    affected_views := Option.some unknown_views
    items := Option.none
    last_backup := Option.none
    validation_performed := Option.none
    severity := if unknown_views.length > 5 then "high" else "medium"
    evidence := "CloudCompromise.md Finding 1, lines 117-127" }

/-- The issue emitted when some keychain items carry epoch timestamps. -/
def epochIssue (epoch_items : List EpochItem) : Issue :=
  { type := "epoch_timestamps"
    description := "Found " ++ toString epoch_items.length ++ " keychain items with epoch timestamps"
    affected_views := Option.none
    items := Option.some epoch_items
    last_backup := Option.none
    validation_performed := Option.none
    severity := "high"
    evidence := "CloudCompromise.md Finding 2, line 145" }

/-- The issue emitted when backup sync is active with a last-backup date. -/
def backupIssue (last_backup validation_performed : PyVal) : Issue :=
  { type := "active_backup_without_validation"
    description := "iCloud backup is active but no validation performed"
    affected_views := Option.none
    items := Option.none
    last_backup := Option.some last_backup
    validation_performed := Option.some validation_performed
    severity := "high"
    evidence := "CloudCompromise.md Finding 3, lines 159-167" }

/-- Embedding of `EvidenceAnalyzer.analyze_keychain_status`, with the mutable
`self.corruption_score` threaded explicitly. -/
def analyze_keychain_status (data : PyVal) (corruption_score : Int) :
    Except String (RuleResult × Int) := do
  let status ← data.attrGet "status_keychain" (PyVal.dict [])
  let circle_status ← status.attrGet "circle_status" PyVal.none
  let circleFired := pyEqStr circle_status "Error"
  let issues0 : List Issue := if circleFired then [circleIssue] else []
  let score0 : Int := if circleFired then corruption_score + 3 else corruption_score
  let sev0 : String := if circleFired then "high" else "none"
  let view_status ← status.attrGet "view_status" (PyVal.dict [])
  let pairs ← view_status.dictItems
  let unknown_views := (pairs.filter (fun p => pyEqStr p.2 "unknown")).map Prod.fst
  if unknown_views.isEmpty then
    return ({ name := "Keychain Status Analysis", issues := issues0, severity := sev0 },
            score0)
  else
    return ({ name := "Keychain Status Analysis",
              issues := issues0 ++ [viewIssue unknown_views],
              severity := "high" },
            score0 + (unknown_views.length : Int))

/-- The per-item body of the loop in `analyze_timestamps`: fetch both
timestamp fields, test them for `"1970-01-01"` (short-circuiting `or`, as in
Python), and build the evidence entry on a hit. -/
def epochCheckItem (item : PyVal) : Except String (Option EpochItem) := do
  let created ← item.attrGet "creation_date" (PyVal.str "")
  let modified ← item.attrGet "modification_date" (PyVal.str "")
  let hitCreated ← pyContains "1970-01-01" created
  let hit ← if hitCreated then pure true else pyContains "1970-01-01" modified
  if hit then do
    let service ← item.attrGet "service" PyVal.none
    let account ← item.attrGet "account" PyVal.none
    return Option.some ⟨service, account, created, modified⟩
  else
    return Option.none

/-- The loop of `analyze_timestamps` accumulating `epoch_items` in order. -/
def collectEpochItems : List PyVal → Except String (List EpochItem)
  | [] => Except.ok []
  | item :: rest => do
      let head ← epochCheckItem item
      let tail ← collectEpochItems rest
      match head with
      | Option.some e => return e :: tail
      | Option.none => return tail

/-- Embedding of `EvidenceAnalyzer.analyze_timestamps`. -/
def analyze_timestamps (data : PyVal) (corruption_score : Int) :
    Except String (RuleResult × Int) := do
  let itemsVal ← data.attrGet "keychain_items" (PyVal.list [])
  let items ← pyIter itemsVal
  let epoch_items ← collectEpochItems items
  if epoch_items.isEmpty then
    return ({ name := "Timestamp Validation", issues := [], severity := "none" },
            corruption_score)
  else
    return ({ name := "Timestamp Validation",
              issues := [epochIssue epoch_items],
              severity := "high" },
            corruption_score + (epoch_items.length : Int) * 2)

/-- Embedding of `EvidenceAnalyzer.analyze_backup_metadata`. -/
def analyze_backup_metadata (data : PyVal) (corruption_score : Int) :
    Except String (RuleResult × Int) := do
  let metadata ← data.attrGet "backup_metadata" (PyVal.dict [])
  let integrity ← data.attrGet "integrity_checks" (PyVal.dict [])
  let sync_active ← metadata.attrGet "SyncZoneFetched" (PyVal.bool false)
  let last_backup ← metadata.attrGet "NilBackupDateFetchDate" PyVal.none
  if sync_active.truthy && last_backup.truthy then do
    let validation_performed ← integrity.attrGet "keychain_validated" (PyVal.bool false)
    return ({ name := "Backup Activity Analysis",
              issues := [backupIssue last_backup validation_performed],
              severity := "high" },
            corruption_score + 2)
  else
    return ({ name := "Backup Activity Analysis", issues := [], severity := "none" },
            corruption_score)

/-- Embedding of the private method assessing the corruption level. -/
def assess_corruption_level (corruption_score : Int) : String :=
  if corruption_score ≥ 10 then "SEVERE - Multiple corruption indicators present"
  else if corruption_score ≥ 5 then "MODERATE - Significant corruption detected"
  else if corruption_score > 0 then "MILD - Some issues detected"
  else "CLEAN - No corruption indicators found"

/-- Embedding of the private recommendation generator: extend with the four
standard actions when the score is positive, then insert the urgency marker
at position 0 when the score reaches 10. -/
def generate_recommendations (corruption_score : Int) : List String :=
  let recommendations : List String := []
  let recommendations :=
    if corruption_score > 0 then
      recommendations ++
        ["DO NOT restore from this backup to new devices",
         "Collect sysdiagnose for documentation",
         "Contact Apple Support with case reference",
         "Consider creating new clean backup after remediation"]
    else recommendations
  if corruption_score ≥ 10 then
    "URGENT: Severe corruption detected - avoid using this backup" :: recommendations
  else
    recommendations

/-- The mutable instance fields set in `EvidenceAnalyzer.__init__`. -/
structure AnalyzerState where
  findings : List RuleResult
  corruption_score : Int

/-- A freshly constructed `EvidenceAnalyzer()`. -/
def initState : AnalyzerState := { findings := [], corruption_score := 0 }

/-- The `summary` dict of a report. -/
structure Summary where
  total_findings : Nat
  total_issues : Nat
  high_severity_findings : Nat
  corruption_score : Int
  assessment : String

/-- The report dict returned by `analyze_all`. -/
structure Report where
  timestamp : String
  summary : Summary
  findings : List RuleResult
  recommendations : List String

/-- The report construction block at the end of `analyze_all`. -/
def mk_report (timestamp : String) (findings : List RuleResult) (corruption_score : Int) :
    Report :=
  { timestamp := timestamp
    summary :=
      { total_findings := findings.length
        total_issues := (findings.map (fun f => f.issues.length)).sum
        high_severity_findings := (findings.filter (fun f => f.severity == "high")).length
        corruption_score := corruption_score
        assessment := assess_corruption_level corruption_score }
    findings := findings
    recommendations := generate_recommendations corruption_score }

/-- Embedding of `EvidenceAnalyzer.analyze_all`: reset `self.findings` and
`self.corruption_score`, run the three analyses in order (each appending one
result and bumping the score), then assemble the report.  `timestamp` stands
for `datetime.utcnow().isoformat()`. -/
def analyze_all (timestamp : String) (data : PyVal) (st : AnalyzerState) :
    Except String (Report × AnalyzerState) := do
  let st := { st with findings := [], corruption_score := 0 }
  let (f1, s1) ← analyze_keychain_status data st.corruption_score
  let (f2, s2) ← analyze_timestamps data s1
  let (f3, s3) ← analyze_backup_metadata data s2
  let findings := st.findings ++ [f1, f2, f3]
  return (mk_report timestamp findings s3,
          { findings := findings, corruption_score := s3 })

/-! ## Pure snapshot observations

Side-effect-free reads of the snapshot along the same key paths the rules
use.  On snapshots conforming to the data model they coincide with the
monadic code above (proved below); they let the theorems speak about "the
entries whose state is unknown", "the matched keychain items", etc. -/

/-- Total counterpart of `.get(key, default)`: a non-dict reads as absent. -/
def sectionGet (v : PyVal) (k : String) (dflt : PyVal) : PyVal :=
  match v with
  | .dict entries => (lookupKey entries k).getD dflt
  | _ => dflt

/-- The `status_keychain` section (defaulting to `{}`). -/
def status_section (data : PyVal) : PyVal :=
  sectionGet data "status_keychain" (PyVal.dict [])

/-- Whether the circle-status rule fires: `circle_status == "Error"`. -/
def circle_error (data : PyVal) : Bool :=
  pyEqStr (sectionGet (status_section data) "circle_status" PyVal.none) "Error"

/-- The `view_status` entries in original iteration order. -/
def view_pairs (data : PyVal) : List (String × PyVal) :=
  match sectionGet (status_section data) "view_status" (PyVal.dict []) with
  | .dict entries => entries
  | _ => []

/-- Names of the views whose state is exactly `"unknown"`, in order. -/
def unknown_views_of (data : PyVal) : List String :=
  ((view_pairs data).filter (fun p => pyEqStr p.2 "unknown")).map Prod.fst

/-- The `keychain_items` sequence (defaulting to `[]`). -/
def keychain_items_of (data : PyVal) : List PyVal :=
  match sectionGet data "keychain_items" (PyVal.list []) with
  | .list xs => xs
  | _ => []

/-- Whether one keychain item triggers the epoch rule: `"1970-01-01"` occurs
in its creation or modification date. -/
def item_hits_epoch (item : PyVal) : Bool :=
  pyContainsB "1970-01-01" (sectionGet item "creation_date" (PyVal.str "")) ||
  pyContainsB "1970-01-01" (sectionGet item "modification_date" (PyVal.str ""))

/-- The keychain items matched by the epoch rule, in order. -/
def epoch_items_of (data : PyVal) : List PyVal :=
  (keychain_items_of data).filter item_hits_epoch

/-- The evidence entry built for one matched keychain item. -/
def epoch_entry_of (item : PyVal) : EpochItem :=
  ⟨sectionGet item "service" PyVal.none,
   sectionGet item "account" PyVal.none,
   sectionGet item "creation_date" (PyVal.str ""),
   sectionGet item "modification_date" (PyVal.str "")⟩

/-- The `backup_metadata` section (defaulting to `{}`). -/
def backup_section (data : PyVal) : PyVal :=
  sectionGet data "backup_metadata" (PyVal.dict [])

/-- The truthiness of `backup_metadata.SyncZoneFetched` (default `False`). -/
def sync_active_of (data : PyVal) : Bool :=
  (sectionGet (backup_section data) "SyncZoneFetched" (PyVal.bool false)).truthy

/-- The `backup_metadata.NilBackupDateFetchDate` value (default `None`). -/
def last_backup_of (data : PyVal) : PyVal :=
  sectionGet (backup_section data) "NilBackupDateFetchDate" PyVal.none

/-- Whether the backup-activity rule fires. -/
def backup_fired (data : PyVal) : Bool :=
  sync_active_of data && (last_backup_of data).truthy

/-- The `integrity_checks.keychain_validated` value (default `False`). -/
def validated_of (data : PyVal) : PyVal :=
  sectionGet (sectionGet data "integrity_checks" (PyVal.dict [])) "keychain_validated"
    (PyVal.bool false)

/-! ## Data-model conformance

`wfSnapshot` renders the snapshot data model: the input is a mapping whose
sections, when present, have the documented shapes (`status_keychain` a
mapping with a mapping `view_status`; `keychain_items` a sequence of mappings
with string timestamps; `backup_metadata` a mapping with a boolean sync flag
and a timestamp-or-absent last-backup date; `integrity_checks` a mapping).
Missing keys are always allowed. -/

/-- Absent, or a string. -/
def strOrAbsent : Option PyVal → Bool
  | Option.none => true
  | Option.some (PyVal.str _) => true
  | _ => false

/-- Absent, null, or a nonempty (timestamp) string. -/
def tsOrAbsent : Option PyVal → Bool
  | Option.none => true
  | Option.some PyVal.none => true
  | Option.some (PyVal.str s) => !s.isEmpty
  | _ => false

/-- Absent or a boolean. -/
def boolOrAbsent : Option PyVal → Bool
  | Option.none => true
  | Option.some (PyVal.bool _) => true
  | _ => false

/-- One keychain item: a mapping whose timestamp fields, when present, are
strings. -/
def wfItem : PyVal → Bool
  | .dict entries =>
      strOrAbsent (lookupKey entries "creation_date") &&
      strOrAbsent (lookupKey entries "modification_date")
  | _ => false

/-- The `status_keychain` section shape. -/
def wfStatusSection : Option PyVal → Bool
  | Option.none => true
  | Option.some (PyVal.dict entries) =>
      match lookupKey entries "view_status" with
      | Option.none => true
      | Option.some (PyVal.dict _) => true
      | _ => false
  | _ => false

/-- The `keychain_items` section shape. -/
def wfItemsSection : Option PyVal → Bool
  | Option.none => true
  | Option.some (PyVal.list xs) => xs.all wfItem
  | _ => false

/-- The `backup_metadata` section shape. -/
def wfBackupSection : Option PyVal → Bool
  | Option.none => true
  | Option.some (PyVal.dict entries) =>
      boolOrAbsent (lookupKey entries "SyncZoneFetched") &&
      tsOrAbsent (lookupKey entries "NilBackupDateFetchDate")
  | _ => false

/-- The `integrity_checks` section shape. -/
def wfIntegritySection : Option PyVal → Bool
  | Option.none => true
  | Option.some (PyVal.dict _) => true
  | _ => false

/-- The snapshot conforms to the data model. -/
def wfSnapshot : PyVal → Bool
  | .dict entries =>
      wfStatusSection (lookupKey entries "status_keychain") &&
      wfItemsSection (lookupKey entries "keychain_items") &&
      wfBackupSection (lookupKey entries "backup_metadata") &&
      wfIntegritySection (lookupKey entries "integrity_checks")
  | _ => false

/-! ## Pure forms of the rule outputs

On conforming snapshots each rule provably returns these values. -/

/-- The keychain-status rule result: circle-status issue then PCS-view issue. -/
def kc_result (data : PyVal) : RuleResult :=
  { name := "Keychain Status Analysis"
    issues := (if circle_error data then [circleIssue] else []) ++
      (if (unknown_views_of data).isEmpty then []
       else [viewIssue (unknown_views_of data)])
    severity := if !(unknown_views_of data).isEmpty then "high"
      else if circle_error data then "high" else "none" }

/-- The timestamp-validation rule result. -/
def ts_result (data : PyVal) : RuleResult :=
  { name := "Timestamp Validation"
    issues := if (epoch_items_of data).isEmpty then []
              else [epochIssue ((epoch_items_of data).map epoch_entry_of)]
    severity := if (epoch_items_of data).isEmpty then "none" else "high" }

/-- The backup-activity rule result. -/
def bm_result (data : PyVal) : RuleResult :=
  if backup_fired data then
    { name := "Backup Activity Analysis"
      issues := [backupIssue (last_backup_of data) (validated_of data)]
      severity := "high" }
  else
    { name := "Backup Activity Analysis", issues := [], severity := "none" }

/-- The three per-rule results in report order. -/
def findings_of (data : PyVal) : List RuleResult :=
  [kc_result data, ts_result data, bm_result data]

/-- The corruption score accumulated over the four signature rules:
3 for a circle-status error, one per unknown PCS view, two per
epoch-timestamped keychain item, and 2 for unvalidated backup activity. -/
def score_of (data : PyVal) : Int :=
  0 + (if circle_error data then 3 else 0) + ((unknown_views_of data).length : Int) +
    ((epoch_items_of data).length : Int) * 2 + (if backup_fired data then 2 else 0)

/-! ## Concrete snapshots used as evaluation points -/

/-- A completely empty snapshot: `{}`. -/
def emptySnap : PyVal := PyVal.dict []

/-- A snapshot triggering all four signatures: circle-status error, one
unknown PCS view, one epoch-dated keychain item, active unvalidated backup.
Score 3 + 1 + 2 + 2 = 8. -/
def exampleSnap : PyVal :=
  PyVal.dict
    [("status_keychain", PyVal.dict
        [("circle_status", PyVal.str "Error"),
         ("view_status", PyVal.dict
            [("view1", PyVal.str "unknown"), ("view2", PyVal.str "enabled")])]),
     ("keychain_items", PyVal.list
        [PyVal.dict
           [("service", PyVal.str "com.apple.account.idms.token"),
            ("account", PyVal.str "user"),
            ("creation_date", PyVal.str "1970-01-01T00:11:19Z"),
            ("modification_date", PyVal.str "2024-01-15T10:30:00Z")]]),
     ("backup_metadata", PyVal.dict
        [("SyncZoneFetched", PyVal.bool true),
         ("NilBackupDateFetchDate", PyVal.str "2024-02-01T08:00:00Z")]),
     ("integrity_checks", PyVal.dict [("keychain_validated", PyVal.bool false)])]

/-- A snapshot with exactly six PCS views in state `"unknown"`. -/
def view6Snap : PyVal :=
  PyVal.dict
    [("status_keychain", PyVal.dict
        [("view_status", PyVal.dict
            [("v1", PyVal.str "unknown"), ("v2", PyVal.str "unknown"),
             ("v3", PyVal.str "unknown"), ("v4", PyVal.str "unknown"),
             ("v5", PyVal.str "unknown"), ("v6", PyVal.str "unknown")])])]

/-- A mapping whose `status_keychain` section is an integer rather than a
mapping: Python then calls `.get` on an `int` and raises `AttributeError`. -/
def badShapeSnap : PyVal := PyVal.dict [("status_keychain", PyVal.int 5)]

/-! ## Characterization of the rules on conforming snapshots -/

theorem exceptBind_ok {ε α β : Type} (a : α) (f : α → Except ε β) :
    (Except.ok a >>= f) = f a := rfl

theorem exceptBind_error {ε α β : Type} (e : ε) (f : α → Except ε β) :
    ((Except.error e : Except ε α) >>= f) = Except.error e := rfl

theorem exceptPure {ε α : Type} (a : α) :
    (pure a : Except ε α) = Except.ok a := rfl

/-- A conforming snapshot is a dict. -/
theorem wf_is_dict (data : PyVal) (h : wfSnapshot data = true) :
    ∃ entries, data = PyVal.dict entries := by
  cases data <;> simp_all [wfSnapshot]

theorem lookupKey_nil (k : String) : lookupKey [] k = Option.none := rfl

/-- On a conforming snapshot, `analyze_keychain_status` succeeds and returns
exactly the circle-status issue (iff `circle_status == "Error"`) followed by
the PCS-view issue (iff some view state is `"unknown"`), adding 3 points for
the former and one point per unknown view for the latter. -/
theorem analyze_keychain_status_wf (data : PyVal) (score : Int)
    (h : wfSnapshot data = true) :
    analyze_keychain_status data score =
      Except.ok
        ({ name := "Keychain Status Analysis"
           issues := (if circle_error data then [circleIssue] else []) ++
             (if (unknown_views_of data).isEmpty then []
              else [viewIssue (unknown_views_of data)])
           severity := if !(unknown_views_of data).isEmpty then "high"
             else if circle_error data then "high" else "none" },
         score + (if circle_error data then 3 else 0) +
           ((unknown_views_of data).length : Int)) := by
  obtain ⟨entries, rfl⟩ := wf_is_dict data h
  simp only [wfSnapshot, Bool.and_eq_true] at h
  obtain ⟨⟨⟨hstat, hitems⟩, hback⟩, hint⟩ := h
  cases hs : lookupKey entries "status_keychain" with
  | none =>
      simp [analyze_keychain_status, circle_error, unknown_views_of, view_pairs,
        status_section, sectionGet, PyVal.attrGet, hs, lookupKey_nil,
        PyVal.dictItems, pyEqStr, exceptBind_ok, exceptPure]
  | some sv =>
      rw [hs] at hstat
      cases sv with
      | dict s =>
          simp only [wfStatusSection] at hstat
          cases hv : lookupKey s "view_status" with
          | none =>
              by_cases hc :
                  pyEqStr ((lookupKey s "circle_status").getD PyVal.none) "Error" = true <;>
                simp [analyze_keychain_status, circle_error, unknown_views_of, view_pairs,
                  status_section, sectionGet, PyVal.attrGet, hs, hv, hc,
                  PyVal.dictItems, exceptBind_ok, exceptPure]
          | some wv =>
              rw [hv] at hstat
              cases wv with
              | dict vs =>
                  cases hL : (List.filter (fun p => pyEqStr p.2 "unknown") vs).map Prod.fst with
                  | nil =>
                      by_cases hc :
                          pyEqStr ((lookupKey s "circle_status").getD PyVal.none) "Error" = true <;>
                        simp [analyze_keychain_status, circle_error, unknown_views_of,
                          view_pairs, status_section, sectionGet, PyVal.attrGet, hs, hv, hc, hL,
                          PyVal.dictItems, exceptBind_ok, exceptPure]
                  | cons a l =>
                      by_cases hc :
                          pyEqStr ((lookupKey s "circle_status").getD PyVal.none) "Error" = true <;>
                        simp [analyze_keychain_status, circle_error, unknown_views_of,
                          view_pairs, status_section, sectionGet, PyVal.attrGet, hs, hv, hc, hL,
                          PyVal.dictItems, exceptBind_ok, exceptPure] <;>
                        (have hlen := congrArg List.length hL; simp at hlen; omega)
              | none => simp at hstat
              | bool b => simp at hstat
              | int n => simp at hstat
              | str t => simp at hstat
              | list xs => simp at hstat
      | none => simp [wfStatusSection] at hstat
      | bool b => simp [wfStatusSection] at hstat
      | int n => simp [wfStatusSection] at hstat
      | str t => simp [wfStatusSection] at hstat
      | list xs => simp [wfStatusSection] at hstat

/-- On a conforming keychain item, the loop body of `analyze_timestamps`
succeeds, and it yields an evidence entry exactly when `"1970-01-01"` occurs
in the creation or modification date. -/
theorem epochCheckItem_wf (item : PyVal) (h : wfItem item = true) :
    epochCheckItem item =
      Except.ok (if item_hits_epoch item then Option.some (epoch_entry_of item)
                 else Option.none) := by
  cases item with
  | dict e =>
      simp only [wfItem, Bool.and_eq_true] at h
      obtain ⟨hcw, hmw⟩ := h
      obtain ⟨c, hcv⟩ :
          ∃ c : String, (lookupKey e "creation_date").getD (PyVal.str "") = PyVal.str c := by
        cases hcd : lookupKey e "creation_date" with
        | none => exact ⟨"", rfl⟩
        | some cv =>
            rw [hcd] at hcw
            cases cv with
            | str t => exact ⟨t, rfl⟩
            | none => simp [strOrAbsent] at hcw
            | bool b => simp [strOrAbsent] at hcw
            | int n => simp [strOrAbsent] at hcw
            | list xs => simp [strOrAbsent] at hcw
            | dict kv => simp [strOrAbsent] at hcw
      obtain ⟨m, hmv⟩ :
          ∃ m : String, (lookupKey e "modification_date").getD (PyVal.str "") = PyVal.str m := by
        cases hmd : lookupKey e "modification_date" with
        | none => exact ⟨"", rfl⟩
        | some mv =>
            rw [hmd] at hmw
            cases mv with
            | str t => exact ⟨t, rfl⟩
            | none => simp [strOrAbsent] at hmw
            | bool b => simp [strOrAbsent] at hmw
            | int n => simp [strOrAbsent] at hmw
            | list xs => simp [strOrAbsent] at hmw
            | dict kv => simp [strOrAbsent] at hmw
      by_cases h1 : strHasSub c "1970-01-01" = true <;>
        by_cases h2 : strHasSub m "1970-01-01" = true <;>
          simp [epochCheckItem, item_hits_epoch, epoch_entry_of, sectionGet,
            PyVal.attrGet, hcv, hmv, pyContains, pyContainsB, h1, h2,
            exceptBind_ok, exceptPure]
  | none => simp [wfItem] at h
  | bool b => simp [wfItem] at h
  | int n => simp [wfItem] at h
  | str t => simp [wfItem] at h
  | list xs => simp [wfItem] at h

/-- On a conforming item list, the `analyze_timestamps` loop collects exactly
the evidence entries of the items that hit the epoch rule, in order. -/
theorem collectEpochItems_wf (xs : List PyVal) (h : xs.all wfItem = true) :
    collectEpochItems xs =
      Except.ok ((xs.filter item_hits_epoch).map epoch_entry_of) := by
  induction xs with
  | nil => rfl
  | cons item rest ih =>
      simp only [List.all_cons, Bool.and_eq_true] at h
      obtain ⟨hi, hr⟩ := h
      by_cases hhit : item_hits_epoch item = true <;>
        simp [collectEpochItems, epochCheckItem_wf item hi, ih hr, hhit,
          exceptBind_ok, exceptPure, List.filter_cons]

/-- On a conforming snapshot, `analyze_timestamps` succeeds and returns the
epoch-timestamp finding exactly when some keychain item carries the epoch
date, adding two points per matched item. -/
theorem analyze_timestamps_wf (data : PyVal) (score : Int)
    (h : wfSnapshot data = true) :
    analyze_timestamps data score =
      Except.ok (ts_result data, score + ((epoch_items_of data).length : Int) * 2) := by
  obtain ⟨entries, rfl⟩ := wf_is_dict data h
  simp only [wfSnapshot, Bool.and_eq_true] at h
  obtain ⟨⟨⟨hstat, hitems⟩, hback⟩, hint⟩ := h
  cases hk : lookupKey entries "keychain_items" with
  | none =>
      simp [analyze_timestamps, ts_result, epoch_items_of, keychain_items_of,
        sectionGet, PyVal.attrGet, hk, pyIter, collectEpochItems,
        exceptBind_ok, exceptPure]
  | some kv =>
      rw [hk] at hitems
      cases kv with
      | list xs =>
          simp only [wfItemsSection] at hitems
          cases hL : xs.filter item_hits_epoch with
          | nil =>
              simp [analyze_timestamps, ts_result, epoch_items_of, keychain_items_of,
                sectionGet, PyVal.attrGet, hk, pyIter, collectEpochItems_wf xs hitems, hL,
                exceptBind_ok, exceptPure]
          | cons a l =>
              simp [analyze_timestamps, ts_result, epoch_items_of, keychain_items_of,
                sectionGet, PyVal.attrGet, hk, pyIter, collectEpochItems_wf xs hitems, hL,
                exceptBind_ok, exceptPure]
      | none => simp [wfItemsSection] at hitems
      | bool b => simp [wfItemsSection] at hitems
      | int n => simp [wfItemsSection] at hitems
      | str t => simp [wfItemsSection] at hitems
      | dict kvs => simp [wfItemsSection] at hitems

/-- On a conforming snapshot, `analyze_backup_metadata` succeeds, fires
exactly when the sync flag and the last-backup date are both truthy, and then
adds 2 points. -/
theorem analyze_backup_metadata_wf (data : PyVal) (score : Int)
    (h : wfSnapshot data = true) :
    analyze_backup_metadata data score =
      Except.ok (bm_result data, if backup_fired data then score + 2 else score) := by
  obtain ⟨entries, rfl⟩ := wf_is_dict data h
  simp only [wfSnapshot, Bool.and_eq_true] at h
  obtain ⟨⟨⟨hstat, hitems⟩, hback⟩, hint⟩ := h
  obtain ⟨mv, hmv⟩ :
      ∃ mv, (lookupKey entries "backup_metadata").getD (PyVal.dict []) = PyVal.dict mv := by
    cases hbm : lookupKey entries "backup_metadata" with
    | none => exact ⟨[], rfl⟩
    | some v =>
        rw [hbm] at hback
        cases v with
        | dict m => exact ⟨m, rfl⟩
        | none => simp [wfBackupSection] at hback
        | bool b => simp [wfBackupSection] at hback
        | int n => simp [wfBackupSection] at hback
        | str t => simp [wfBackupSection] at hback
        | list xs => simp [wfBackupSection] at hback
  obtain ⟨iv, hiv⟩ :
      ∃ iv, (lookupKey entries "integrity_checks").getD (PyVal.dict []) = PyVal.dict iv := by
    cases hic : lookupKey entries "integrity_checks" with
    | none => exact ⟨[], rfl⟩
    | some v =>
        rw [hic] at hint
        cases v with
        | dict i => exact ⟨i, rfl⟩
        | none => simp [wfIntegritySection] at hint
        | bool b => simp [wfIntegritySection] at hint
        | int n => simp [wfIntegritySection] at hint
        | str t => simp [wfIntegritySection] at hint
        | list xs => simp [wfIntegritySection] at hint
  by_cases hf : backup_fired (PyVal.dict entries) = true <;>
    [skip; skip] <;>
    · simp only [backup_fired, sync_active_of, last_backup_of, backup_section,
        sectionGet, hmv, Bool.and_eq_true] at hf
      simp [analyze_backup_metadata, bm_result, backup_fired, sync_active_of,
        last_backup_of, backup_section, validated_of, sectionGet, PyVal.attrGet,
        hmv, hiv, hf, exceptBind_ok, exceptPure]

/-- On a conforming snapshot, `analyze_all` succeeds and returns exactly the
report assembled from the three pure rule results and the summed score,
regardless of the analyzer state it starts from. -/
theorem analyze_all_wf (ts : String) (data : PyVal) (st : AnalyzerState)
    (h : wfSnapshot data = true) :
    analyze_all ts data st =
      Except.ok (mk_report ts (findings_of data) (score_of data),
                 { findings := findings_of data, corruption_score := score_of data }) := by
  have h1 := analyze_keychain_status_wf data 0 h
  have h2 := fun s => analyze_timestamps_wf data s h
  have h3 := fun s => analyze_backup_metadata_wf data s h
  by_cases hf : backup_fired data = true <;>
    simp [analyze_all, h1, h2, h3, hf, mk_report, findings_of, score_of,
      kc_result, ts_result, bm_result, exceptBind_ok, exceptPure]

/-! ## Shape of the outputs on arbitrary inputs (whenever no error is raised) -/

/-- Whenever `analyze_keychain_status` returns without raising, its result is
the circle issue (for some flag) followed by the view issue (for some
collected list), with the matching severity and score increment. -/
theorem analyze_keychain_status_ok (data : PyVal) (score s' : Int) (res : RuleResult)
    (h : analyze_keychain_status data score = Except.ok (res, s')) :
    ∃ (c : Bool) (uv : List String),
      res = { name := "Keychain Status Analysis"
              issues := (if c then [circleIssue] else []) ++
                (if uv.isEmpty then [] else [viewIssue uv])
              severity := if !uv.isEmpty then "high"
                else if c then "high" else "none" } ∧
      s' = score + (if c then 3 else 0) + (uv.length : Int) := by
  cases hx : PyVal.attrGet data "status_keychain" (PyVal.dict []) with
  | error e => simp [analyze_keychain_status, hx, exceptBind_error] at h
  | ok status =>
    cases hy : status.attrGet "circle_status" PyVal.none with
    | error e =>
        simp [analyze_keychain_status, hx, hy, exceptBind_ok, exceptBind_error] at h
    | ok circle =>
      cases hz : status.attrGet "view_status" (PyVal.dict []) with
      | error e =>
          simp [analyze_keychain_status, hx, hy, hz, exceptBind_ok, exceptBind_error] at h
      | ok vs =>
        cases hw : vs.dictItems with
        | error e =>
            simp [analyze_keychain_status, hx, hy, hz, hw, exceptBind_ok,
              exceptBind_error] at h
        | ok pairs =>
          refine ⟨pyEqStr circle "Error",
            (pairs.filter (fun p => pyEqStr p.2 "unknown")).map Prod.fst, ?_⟩
          cases hL : (pairs.filter (fun p => pyEqStr p.2 "unknown")).map Prod.fst with
          | nil =>
              by_cases hc : pyEqStr circle "Error" = true <;>
                simp [analyze_keychain_status, hx, hy, hz, hw, hc, hL,
                  exceptBind_ok, exceptPure] at h <;>
                simp [hc, hL, ← h.1, ← h.2]
          | cons a l =>
              by_cases hc : pyEqStr circle "Error" = true <;>
                simp [analyze_keychain_status, hx, hy, hz, hw, hc, hL,
                  exceptBind_ok, exceptPure] at h <;>
                simp [hc, hL, ← h.1, ← h.2] <;>
                (have hlen := congrArg List.length hL; simp at hlen; omega)

/-- Whenever `analyze_timestamps` returns without raising, its result is the
single epoch finding over some collected item list (empty list meaning no
finding), with severity and score increment determined by that list. -/
theorem analyze_timestamps_ok (data : PyVal) (score s' : Int) (res : RuleResult)
    (h : analyze_timestamps data score = Except.ok (res, s')) :
    ∃ es : List EpochItem,
      res = { name := "Timestamp Validation"
              issues := if es.isEmpty then [] else [epochIssue es]
              severity := if es.isEmpty then "none" else "high" } ∧
      s' = score + (es.length : Int) * 2 := by
  cases hx : PyVal.attrGet data "keychain_items" (PyVal.list []) with
  | error e => simp [analyze_timestamps, hx, exceptBind_error] at h
  | ok itemsVal =>
    cases hy : pyIter itemsVal with
    | error e => simp [analyze_timestamps, hx, hy, exceptBind_ok, exceptBind_error] at h
    | ok items =>
      cases hz : collectEpochItems items with
      | error e =>
          simp [analyze_timestamps, hx, hy, hz, exceptBind_ok, exceptBind_error] at h
      | ok es =>
        refine ⟨es, ?_⟩
        cases es with
        | nil =>
            simp [analyze_timestamps, hx, hy, hz, exceptBind_ok, exceptPure] at h
            simp [← h.1, ← h.2]
        | cons a l =>
            simp [analyze_timestamps, hx, hy, hz, exceptBind_ok, exceptPure] at h
            simp [← h.1, ← h.2]

/-- Whenever `analyze_backup_metadata` returns without raising, its result is
either the single backup finding with 2 points, or no finding with the score
unchanged. -/
theorem analyze_backup_metadata_ok (data : PyVal) (score s' : Int) (res : RuleResult)
    (h : analyze_backup_metadata data score = Except.ok (res, s')) :
    ∃ (fired : Bool) (lb vp : PyVal),
      res = (if fired then
               { name := "Backup Activity Analysis"
                 issues := [backupIssue lb vp]
                 severity := "high" }
             else
               { name := "Backup Activity Analysis", issues := [], severity := "none" }) ∧
      s' = (if fired then score + 2 else score) := by
  cases hx : PyVal.attrGet data "backup_metadata" (PyVal.dict []) with
  | error e => simp [analyze_backup_metadata, hx, exceptBind_error] at h
  | ok metadata =>
    cases hy : PyVal.attrGet data "integrity_checks" (PyVal.dict []) with
    | error e =>
        simp [analyze_backup_metadata, hx, hy, exceptBind_ok, exceptBind_error] at h
    | ok integrity =>
      cases hz : metadata.attrGet "SyncZoneFetched" (PyVal.bool false) with
      | error e =>
          simp [analyze_backup_metadata, hx, hy, hz, exceptBind_ok, exceptBind_error] at h
      | ok sync_active =>
        cases hw : metadata.attrGet "NilBackupDateFetchDate" PyVal.none with
        | error e =>
            simp [analyze_backup_metadata, hx, hy, hz, hw, exceptBind_ok,
              exceptBind_error] at h
        | ok last_backup =>
          by_cases hf : sync_active.truthy = true ∧ last_backup.truthy = true
          · cases hv : integrity.attrGet "keychain_validated" (PyVal.bool false) with
            | error e =>
                simp [analyze_backup_metadata, hx, hy, hz, hw, hv, hf, exceptBind_ok,
                  exceptBind_error] at h
            | ok validation_performed =>
                refine ⟨true, last_backup, validation_performed, ?_⟩
                simp [analyze_backup_metadata, hx, hy, hz, hw, hv, hf, exceptBind_ok,
                  exceptPure] at h
                simp [← h.1, ← h.2]
          · refine ⟨false, PyVal.none, PyVal.none, ?_⟩
            simp [analyze_backup_metadata, hx, hy, hz, hw, hf, exceptBind_ok,
              exceptPure] at h
            simp [← h.1, ← h.2]

/-- Whenever `analyze_all` returns a report, that report is assembled by
`mk_report` from the three rule results run in order starting from score 0,
and the final analyzer state holds exactly those findings and that score. -/
theorem analyze_all_ok (ts : String) (data : PyVal) (st : AnalyzerState)
    (r : Report) (st2 : AnalyzerState)
    (h : analyze_all ts data st = Except.ok (r, st2)) :
    ∃ (f1 f2 f3 : RuleResult) (s1 s2 s3 : Int),
      analyze_keychain_status data 0 = Except.ok (f1, s1) ∧
      analyze_timestamps data s1 = Except.ok (f2, s2) ∧
      analyze_backup_metadata data s2 = Except.ok (f3, s3) ∧
      r = mk_report ts [f1, f2, f3] s3 ∧
      st2 = { findings := [f1, f2, f3], corruption_score := s3 } := by
  cases h1 : analyze_keychain_status data 0 with
  | error e => simp [analyze_all, h1, exceptBind_error] at h
  | ok p1 =>
    obtain ⟨f1, s1⟩ := p1
    cases h2 : analyze_timestamps data s1 with
    | error e => simp [analyze_all, h1, h2, exceptBind_ok, exceptBind_error] at h
    | ok p2 =>
      obtain ⟨f2, s2⟩ := p2
      cases h3 : analyze_backup_metadata data s2 with
      | error e =>
          simp [analyze_all, h1, h2, h3, exceptBind_ok, exceptBind_error] at h
      | ok p3 =>
        obtain ⟨f3, s3⟩ := p3
        refine ⟨f1, f2, f3, s1, s2, s3, rfl, h2, h3, ?_, ?_⟩ <;>
          simp [analyze_all, h1, h2, h3, exceptBind_ok, exceptPure] at h <;>
          simp [← h.1, ← h.2]

/-- Under the data model, the sync flag is truthy exactly when it equals the
boolean `true`, and the last-backup value is truthy exactly when a nonempty
timestamp string is present. -/
theorem backup_flags_wf (data : PyVal) (h : wfSnapshot data = true) :
    (sync_active_of data = true ↔
      sectionGet (backup_section data) "SyncZoneFetched" (PyVal.bool false) =
        PyVal.bool true) ∧
    ((last_backup_of data).truthy = true ↔
      ∃ s : String, last_backup_of data = PyVal.str s ∧ s ≠ "") := by
  obtain ⟨entries, rfl⟩ := wf_is_dict data h
  simp only [wfSnapshot, Bool.and_eq_true] at h
  obtain ⟨⟨⟨hstat, hitems⟩, hback⟩, hint⟩ := h
  unfold sync_active_of last_backup_of backup_section
  cases hbm : lookupKey entries "backup_metadata" with
  | none => simp [sectionGet, hbm, lookupKey_nil, PyVal.truthy]
  | some v =>
    rw [hbm] at hback
    cases v with
    | dict m =>
      simp only [wfBackupSection, Bool.and_eq_true] at hback
      obtain ⟨hsync, hts⟩ := hback
      constructor
      · cases hs : lookupKey m "SyncZoneFetched" with
        | none => simp [sectionGet, hbm, hs, PyVal.truthy]
        | some sv =>
          rw [hs] at hsync
          cases sv with
          | bool b => cases b <;> simp [sectionGet, hbm, hs, PyVal.truthy]
          | none => simp [boolOrAbsent] at hsync
          | int n => simp [boolOrAbsent] at hsync
          | str t => simp [boolOrAbsent] at hsync
          | list xs => simp [boolOrAbsent] at hsync
          | dict kv => simp [boolOrAbsent] at hsync
      · cases hl : lookupKey m "NilBackupDateFetchDate" with
        | none => simp [sectionGet, hbm, hl, PyVal.truthy]
        | some lv =>
          rw [hl] at hts
          cases lv with
          | str t =>
              simp only [tsOrAbsent] at hts
              simp [sectionGet, hbm, hl, PyVal.truthy, hts]
              intro hemp
              rw [hemp] at hts
              exact absurd hts (by decide)
          | none => simp [sectionGet, hbm, hl, PyVal.truthy]
          | bool b => simp [tsOrAbsent] at hts
          | int n => simp [tsOrAbsent] at hts
          | list xs => simp [tsOrAbsent] at hts
          | dict kv => simp [tsOrAbsent] at hts
    | none => simp [wfBackupSection] at hback
    | bool b => simp [wfBackupSection] at hback
    | int n => simp [wfBackupSection] at hback
    | str t => simp [wfBackupSection] at hback
    | list xs => simp [wfBackupSection] at hback

/-! ## The claims -/

/-- C1: for every data-model-conforming snapshot, the corruption score in the
report returned by `analyze_all` equals the exact sum of the weight
contributions of the rules actually triggered — 3 if `circle_status` is
`"Error"`, plus the number of `"unknown"` view states, plus 2 per keychain
item whose creation or modification timestamp contains `"1970-01-01"`, plus 2
if the backup-activity rule fires — and is non-negative and monotonically
non-decreasing as more signatures are present. -/
theorem C1_score_exact_sum_and_monotone (data : PyVal) (ts : String)
    (st : AnalyzerState) (r : Report) (st2 : AnalyzerState)
    (hwf : wfSnapshot data = true)
    (hrun : analyze_all ts data st = Except.ok (r, st2)) :
    r.summary.corruption_score =
      (if circle_error data then 3 else 0) +
        ((unknown_views_of data).length : Int) +
        2 * ((epoch_items_of data).length : Int) +
        (if backup_fired data then 2 else 0) ∧
    0 ≤ r.summary.corruption_score ∧
    (∀ (data2 : PyVal) (ts2 : String) (st3 : AnalyzerState) (r2 : Report)
        (st4 : AnalyzerState),
      wfSnapshot data2 = true →
      analyze_all ts2 data2 st3 = Except.ok (r2, st4) →
      (circle_error data = true → circle_error data2 = true) →
      (unknown_views_of data).length ≤ (unknown_views_of data2).length →
      (epoch_items_of data).length ≤ (epoch_items_of data2).length →
      (backup_fired data = true → backup_fired data2 = true) →
      r.summary.corruption_score ≤ r2.summary.corruption_score) := by
  have hr := analyze_all_wf ts data st hwf
  rw [hrun] at hr
  simp only [Except.ok.injEq, Prod.mk.injEq] at hr
  have hsc : r.summary.corruption_score = score_of data := by rw [hr.1]; rfl
  refine ⟨?_, ?_, ?_⟩
  · rw [hsc]; unfold score_of
    by_cases h1 : circle_error data = true <;>
      by_cases h2 : backup_fired data = true <;> simp [h1, h2] <;> ring
  · rw [hsc]; unfold score_of
    by_cases h1 : circle_error data = true <;>
      by_cases h2 : backup_fired data = true <;> simp [h1, h2] <;> omega
  · intro data2 ts2 st3 r2 st4 hwf2 hrun2 hcc hvv hee hbb
    have hr2 := analyze_all_wf ts2 data2 st3 hwf2
    rw [hrun2] at hr2
    simp only [Except.ok.injEq, Prod.mk.injEq] at hr2
    have hsc2 : r2.summary.corruption_score = score_of data2 := by rw [hr2.1]; rfl
    rw [hsc, hsc2]; unfold score_of
    by_cases c1 : circle_error data = true <;>
      by_cases c2 : circle_error data2 = true <;>
      by_cases b1 : backup_fired data = true <;>
      by_cases b2 : backup_fired data2 = true <;>
      first
        | exact absurd (hcc c1) c2
        | exact absurd (hbb b1) b2
        | (simp [c1, c2, b1, b2]; omega)

/-- C1 witness: evaluation at the all-signatures snapshot (score 8). -/
theorem C1_score_exact_sum_and_monotone_witness :
    (mk_report "t" (findings_of exampleSnap) (score_of exampleSnap)).summary.corruption_score =
      (if circle_error exampleSnap then 3 else 0) +
        ((unknown_views_of exampleSnap).length : Int) +
        2 * ((epoch_items_of exampleSnap).length : Int) +
        (if backup_fired exampleSnap then 2 else 0) :=
  (C1_score_exact_sum_and_monotone exampleSnap "t" initState
    (mk_report "t" (findings_of exampleSnap) (score_of exampleSnap))
    { findings := findings_of exampleSnap, corruption_score := score_of exampleSnap }
    rfl rfl).1

/-- C2: the assessment label is a function of the corruption score alone,
with inclusive lower bounds: 10 and above is SEVERE, 5 to 9 MODERATE, 1 to 4
MILD, 0 CLEAN; in particular exactly 5 is MODERATE and exactly 10 SEVERE. -/
theorem C2_assessment_by_score_thresholds (ts : String) (data : PyVal)
    (st : AnalyzerState) (r : Report) (st2 : AnalyzerState)
    (h : analyze_all ts data st = Except.ok (r, st2)) :
    r.summary.assessment = assess_corruption_level r.summary.corruption_score ∧
    (∀ s : Int,
      (10 ≤ s →
        assess_corruption_level s = "SEVERE - Multiple corruption indicators present") ∧
      (5 ≤ s → s < 10 →
        assess_corruption_level s = "MODERATE - Significant corruption detected") ∧
      (0 < s → s < 5 →
        assess_corruption_level s = "MILD - Some issues detected") ∧
      (s = 0 →
        assess_corruption_level s = "CLEAN - No corruption indicators found")) ∧
    assess_corruption_level 5 = "MODERATE - Significant corruption detected" ∧
    assess_corruption_level 10 = "SEVERE - Multiple corruption indicators present" := by
  obtain ⟨f1, f2, f3, s1, s2, s3, h1, h2, h3, hrep, hst⟩ :=
    analyze_all_ok ts data st r st2 h
  refine ⟨by rw [hrep]; rfl, ?_, rfl, rfl⟩
  intro s
  refine ⟨?_, ?_, ?_, ?_⟩ <;> intros <;>
    (unfold assess_corruption_level; split_ifs <;> first | rfl | omega)

/-- C2 witness: evaluation at the all-signatures snapshot. -/
theorem C2_assessment_by_score_thresholds_witness :
    (mk_report "t" (findings_of exampleSnap) (score_of exampleSnap)).summary.assessment =
      assess_corruption_level
        (mk_report "t" (findings_of exampleSnap)
          (score_of exampleSnap)).summary.corruption_score :=
  (C2_assessment_by_score_thresholds "t" exampleSnap initState
    (mk_report "t" (findings_of exampleSnap) (score_of exampleSnap))
    { findings := findings_of exampleSnap, corruption_score := score_of exampleSnap }
    rfl).1

/-- C3: the PCS-view rule collects exactly the `view_status` entries whose
state equals `"unknown"`; a non-empty collection yields one finding, severity
`"high"` above 5 unknowns and `"medium"` otherwise, weight one point per
affected view, with all affected view names listed in original iteration
order; an empty collection yields no such finding. -/
theorem C3_pcs_view_rule (data : PyVal) (score : Int)
    (hwf : wfSnapshot data = true) :
    ∃ (res : RuleResult) (s2 : Int),
      analyze_keychain_status data score = Except.ok (res, s2) ∧
      unknown_views_of data =
        ((view_pairs data).filter (fun p => pyEqStr p.2 "unknown")).map Prod.fst ∧
      (unknown_views_of data = [] →
        res.issues.filter (fun i => i.type == "unknown_pcs_views") = []) ∧
      (unknown_views_of data ≠ [] →
        res.issues.filter (fun i => i.type == "unknown_pcs_views") =
          [viewIssue (unknown_views_of data)] ∧
        (viewIssue (unknown_views_of data)).severity =
          (if 5 < (unknown_views_of data).length then "high" else "medium") ∧
        (viewIssue (unknown_views_of data)).affected_views =
          Option.some (unknown_views_of data)) ∧
      s2 = score + (if circle_error data then 3 else 0) +
        ((unknown_views_of data).length : Int) := by
  refine ⟨_, _, analyze_keychain_status_wf data score hwf, rfl, ?_, ?_, rfl⟩
  · intro hnil
    by_cases hc : circle_error data = true <;>
      simp [hc, hnil, circleIssue, viewIssue]
  · intro hne
    have hni : (unknown_views_of data).isEmpty = false := by
      cases hL : unknown_views_of data with
      | nil => exact absurd hL hne
      | cons a l => rfl
    by_cases hc : circle_error data = true <;>
      simp [hc, hni, circleIssue, viewIssue]

/-- C3 witness: six unknown views give one finding of severity high and
weight 6. -/
theorem C3_pcs_view_rule_witness :
    ∃ (res : RuleResult) (s2 : Int),
      analyze_keychain_status view6Snap 0 = Except.ok (res, s2) ∧
      res.issues.filter (fun i => i.type == "unknown_pcs_views") =
        [viewIssue (unknown_views_of view6Snap)] ∧
      (viewIssue (unknown_views_of view6Snap)).severity = "high" ∧
      s2 = 6 := by
  obtain ⟨res, s2, hok, hcollect, hnil, hne, hs⟩ := C3_pcs_view_rule view6Snap 0 rfl
  obtain ⟨hfilter, hsev, hviews⟩ := hne (by decide)
  refine ⟨res, s2, hok, hfilter, ?_, ?_⟩
  · rw [hsev]; rfl
  · rw [hs]; rfl

/-- C4: the epoch-timestamp rule matches exactly the keychain items whose
creation or modification date contains `"1970-01-01"` as a substring (so both
T-separated and space-separated epoch timestamps trigger, while a 2024 date
does not); a non-empty match set yields one finding of severity `"high"`,
weight 2 per matched item, listing every matched item. -/
theorem C4_epoch_timestamp_rule (data : PyVal) (score : Int)
    (hwf : wfSnapshot data = true) :
    ∃ (res : RuleResult) (s2 : Int),
      analyze_timestamps data score = Except.ok (res, s2) ∧
      epoch_items_of data = (keychain_items_of data).filter item_hits_epoch ∧
      (∀ (entries : List (String × PyVal)) (c m : String),
        lookupKey entries "creation_date" = Option.some (PyVal.str c) →
        lookupKey entries "modification_date" = Option.some (PyVal.str m) →
        item_hits_epoch (PyVal.dict entries) =
          (strHasSub c "1970-01-01" || strHasSub m "1970-01-01")) ∧
      strHasSub "1970-01-01T00:11:19Z" "1970-01-01" = true ∧
      strHasSub "1970-01-01 00:00:00 +0000" "1970-01-01" = true ∧
      strHasSub "2024-01-15T10:30:00Z" "1970-01-01" = false ∧
      (epoch_items_of data = [] → res.issues = []) ∧
      (epoch_items_of data ≠ [] →
        res.issues = [epochIssue ((epoch_items_of data).map epoch_entry_of)] ∧
        res.severity = "high" ∧
        (epochIssue ((epoch_items_of data).map epoch_entry_of)).items =
          Option.some ((epoch_items_of data).map epoch_entry_of)) ∧
      s2 = score + ((epoch_items_of data).length : Int) * 2 := by
  refine ⟨_, _, analyze_timestamps_wf data score hwf, rfl, ?_, by decide, by decide,
    by decide, ?_, ?_, rfl⟩
  · intro entries c m hc hm
    simp [item_hits_epoch, sectionGet, hc, hm, pyContainsB]
  · intro hnil
    simp [ts_result, hnil]
  · intro hne
    have hni : (epoch_items_of data).isEmpty = false := by
      cases hL : epoch_items_of data with
      | nil => exact absurd hL hne
      | cons a l => rfl
    simp [ts_result, hni, epochIssue]

/-- C4 witness: the snapshot whose single keychain item has creation date
`"1970-01-01T00:11:19Z"` yields the epoch finding with weight 2. -/
theorem C4_epoch_timestamp_rule_witness :
    ∃ (res : RuleResult) (s2 : Int),
      analyze_timestamps exampleSnap 0 = Except.ok (res, s2) ∧
      res.issues = [epochIssue ((epoch_items_of exampleSnap).map epoch_entry_of)] ∧
      res.severity = "high" ∧ s2 = 2 := by
  obtain ⟨res, s2, hok, hfilt, hiff, he1, he2, he3, hnil, hne, hs⟩ :=
    C4_epoch_timestamp_rule exampleSnap 0 rfl
  obtain ⟨hiss, hsev, hitems⟩ :=
    hne (by intro h; exact absurd (congrArg List.length h) (by decide))
  exact ⟨res, s2, hok, hiss, hsev, by rw [hs]; rfl⟩

/-- C5: the backup-activity rule emits one finding of severity `"high"` and
weight 2 exactly when the sync flag is (the boolean) true and a nonempty
last-backup timestamp is present; its evidence carries the last-backup value
and `integrity_checks.keychain_validated` (default false); otherwise it emits
no finding and leaves the score unchanged. -/
theorem C5_backup_activity_rule (data : PyVal) (score : Int)
    (hwf : wfSnapshot data = true) :
    ∃ (res : RuleResult) (s2 : Int),
      analyze_backup_metadata data score = Except.ok (res, s2) ∧
      backup_fired data = (sync_active_of data && (last_backup_of data).truthy) ∧
      (sync_active_of data = true ↔
        sectionGet (backup_section data) "SyncZoneFetched" (PyVal.bool false) =
          PyVal.bool true) ∧
      ((last_backup_of data).truthy = true ↔
        ∃ s : String, last_backup_of data = PyVal.str s ∧ s ≠ "") ∧
      (backup_fired data = true →
        res.issues = [backupIssue (last_backup_of data) (validated_of data)] ∧
        res.severity = "high" ∧ s2 = score + 2 ∧
        (backupIssue (last_backup_of data) (validated_of data)).last_backup =
          Option.some (last_backup_of data) ∧
        (backupIssue (last_backup_of data) (validated_of data)).validation_performed =
          Option.some (validated_of data)) ∧
      (backup_fired data = false →
        res.issues = [] ∧ res.severity = "none" ∧ s2 = score) ∧
      validated_of data =
        sectionGet (sectionGet data "integrity_checks" (PyVal.dict []))
          "keychain_validated" (PyVal.bool false) := by
  obtain ⟨hsync, hlast⟩ := backup_flags_wf data hwf
  refine ⟨_, _, analyze_backup_metadata_wf data score hwf, rfl, hsync, hlast,
    ?_, ?_, rfl⟩
  · intro hf
    simp [bm_result, hf, backupIssue]
  · intro hf
    simp [bm_result, hf]

/-- C5 witness: the all-signatures snapshot has active sync with a last-backup
date, so the backup finding fires with weight 2. -/
theorem C5_backup_activity_rule_witness :
    ∃ (res : RuleResult) (s2 : Int),
      analyze_backup_metadata exampleSnap 0 = Except.ok (res, s2) ∧
      res.issues = [backupIssue (last_backup_of exampleSnap) (validated_of exampleSnap)] ∧
      res.severity = "high" ∧ s2 = 2 := by
  obtain ⟨res, s2, hok, hbf, hsy, hlb, hfire, hnof, hval⟩ :=
    C5_backup_activity_rule exampleSnap 0 rfl
  obtain ⟨hiss, hsev, hs2, h4, h5⟩ := hfire rfl
  exact ⟨res, s2, hok, hiss, hsev, by rw [hs2]; rfl⟩

/-- C6: the recommendation list is empty exactly when the score is 0; a
positive score yields the four standard actions in fixed order; a score of at
least 10 additionally prepends the urgency marker, for exactly 5 entries. -/
theorem C6_recommendation_derivation (ts : String) (data : PyVal) (st : AnalyzerState)
    (r : Report) (st2 : AnalyzerState)
    (h : analyze_all ts data st = Except.ok (r, st2)) :
    (r.recommendations = [] ↔ r.summary.corruption_score = 0) ∧
    (0 < r.summary.corruption_score → r.summary.corruption_score < 10 →
      r.recommendations =
        ["DO NOT restore from this backup to new devices",
         "Collect sysdiagnose for documentation",
         "Contact Apple Support with case reference",
         "Consider creating new clean backup after remediation"]) ∧
    (10 ≤ r.summary.corruption_score →
      r.recommendations =
        "URGENT: Severe corruption detected - avoid using this backup" ::
          ["DO NOT restore from this backup to new devices",
           "Collect sysdiagnose for documentation",
           "Contact Apple Support with case reference",
           "Consider creating new clean backup after remediation"] ∧
      r.recommendations.length = 5) := by
  obtain ⟨f1, f2, f3, s1, s2, s3, h1, h2, h3, hrep, hst⟩ :=
    analyze_all_ok ts data st r st2 h
  obtain ⟨c, uv, hres1, hs1⟩ := analyze_keychain_status_ok data 0 s1 f1 h1
  obtain ⟨es, hres2, hs2⟩ := analyze_timestamps_ok data s1 s2 f2 h2
  obtain ⟨fired, lb, vp, hres3, hs3⟩ := analyze_backup_metadata_ok data s2 s3 f3 h3
  have hpos : 0 ≤ s3 := by
    cases c <;> cases fired <;> simp at hs1 hs3 <;> omega
  subst hrep
  refine ⟨?_, ?_, ?_⟩
  · show generate_recommendations s3 = [] ↔ s3 = 0
    simp only [generate_recommendations]
    split_ifs <;> simp <;> omega
  · intro hp hl
    replace hp : 0 < s3 := hp
    replace hl : s3 < 10 := hl
    show generate_recommendations s3 = _
    simp only [generate_recommendations]
    split_ifs <;> first | rfl | omega
  · intro hge
    replace hge : 10 ≤ s3 := hge
    constructor
    · show generate_recommendations s3 = _
      simp only [generate_recommendations]
      split_ifs <;> first | rfl | omega
    · show (generate_recommendations s3).length = 5
      simp only [generate_recommendations]
      split_ifs <;> first | rfl | omega

/-- C6 witness: at the all-signatures snapshot (score 8) the four standard
recommendations are returned. -/
theorem C6_recommendation_derivation_witness :
    (mk_report "t" (findings_of exampleSnap) (score_of exampleSnap)).recommendations =
      ["DO NOT restore from this backup to new devices",
       "Collect sysdiagnose for documentation",
       "Contact Apple Support with case reference",
       "Consider creating new clean backup after remediation"] :=
  (C6_recommendation_derivation "t" exampleSnap initState
    (mk_report "t" (findings_of exampleSnap) (score_of exampleSnap))
    { findings := findings_of exampleSnap, corruption_score := score_of exampleSnap }
    rfl).2.1 (by decide) (by decide)

/-- C7 counterexample: an input mapping with no missing keys but an
unexpectedly shaped `status_keychain` section (the integer 5) makes
`analyze_all` raise — the model returns the Python `AttributeError` — instead
of degrading to a no-finding report, so `analyze_all` does not accept every
input mapping. -/
theorem C7_counterexample_raises :
    analyze_all "t" badShapeSnap initState = Except.error "AttributeError" := rfl

/-- C7 amended: on every mapping conforming to the data model (sections, when
present, of the documented shapes; any key may be missing so lookups fall
back to empty mapping/sequence/false defaults), `analyze_all` never raises,
and a snapshot with zero matched signatures yields score 0, the CLEAN
assessment, no issues in any finding group, and no recommendations. -/
theorem C7_graceful_on_conforming (ts : String) (data : PyVal) (st : AnalyzerState)
    (hwf : wfSnapshot data = true) :
    analyze_all ts data st =
      Except.ok (mk_report ts (findings_of data) (score_of data),
                 { findings := findings_of data, corruption_score := score_of data }) ∧
    (circle_error data = false → unknown_views_of data = [] →
      epoch_items_of data = [] → backup_fired data = false →
      score_of data = 0 ∧
      (mk_report ts (findings_of data) (score_of data)).summary.assessment =
        "CLEAN - No corruption indicators found" ∧
      (∀ f ∈ findings_of data, f.issues = []) ∧
      (mk_report ts (findings_of data) (score_of data)).recommendations = []) := by
  refine ⟨analyze_all_wf ts data st hwf, ?_⟩
  intro hc hu he hb
  have hz : score_of data = 0 := by simp [score_of, hc, hu, he, hb]
  refine ⟨hz, ?_, ?_, ?_⟩
  · show assess_corruption_level (score_of data) = _
    rw [hz]; rfl
  · simp [findings_of, kc_result, ts_result, bm_result, hc, hu, he, hb]
  · show generate_recommendations (score_of data) = []
    rw [hz]; rfl

/-- C7 witness: the empty snapshot is analyzed without error and scores 0. -/
theorem C7_graceful_on_conforming_witness :
    analyze_all "t" emptySnap initState =
      Except.ok (mk_report "t" (findings_of emptySnap) (score_of emptySnap),
                 { findings := findings_of emptySnap,
                   corruption_score := score_of emptySnap }) ∧
    score_of emptySnap = 0 := by
  have h := C7_graceful_on_conforming "t" emptySnap initState rfl
  exact ⟨h.1, (h.2 rfl rfl rfl rfl).1⟩

/-- C8: `analyze_all` resets the findings list and the corruption score on
entry, so its outcome is independent of the analyzer state it starts from:
analyzing B after A on the same instance equals analyzing B on a fresh
instance, re-analyzing A reproduces the identical report and state, and in
general any two starting states give the same result. -/
theorem C8_no_state_leakage (ts : String) (A B : PyVal) (st st1 : AnalyzerState)
    (rA : Report)
    (hA : analyze_all ts A st = Except.ok (rA, st1)) :
    analyze_all ts B st1 = analyze_all ts B initState ∧
    analyze_all ts A st1 = Except.ok (rA, st1) ∧
    (∀ (C : PyVal) (stX stY : AnalyzerState),
      analyze_all ts C stX = analyze_all ts C stY) := by
  have hind : ∀ (C : PyVal) (stX stY : AnalyzerState),
      analyze_all ts C stX = analyze_all ts C stY := fun C stX stY => rfl
  exact ⟨hind B st1 initState, (hind A st1 st).trans hA, hind⟩

/-- C8 witness: after analyzing the all-signatures snapshot, analyzing the
empty snapshot on the used instance equals analyzing it on a fresh one. -/
theorem C8_no_state_leakage_witness :
    analyze_all "t" emptySnap
        { findings := findings_of exampleSnap, corruption_score := score_of exampleSnap } =
      analyze_all "t" emptySnap initState :=
  (C8_no_state_leakage "t" exampleSnap emptySnap initState
    { findings := findings_of exampleSnap, corruption_score := score_of exampleSnap }
    (mk_report "t" (findings_of exampleSnap) (score_of exampleSnap)) rfl).1

/-- C9: every produced report has exactly three findings — keychain status,
timestamp validation, backup activity — so `summary.total_findings` is always
3 regardless of how many signatures matched. -/
theorem C9_always_three_findings (ts : String) (data : PyVal) (st : AnalyzerState)
    (r : Report) (st2 : AnalyzerState)
    (h : analyze_all ts data st = Except.ok (r, st2)) :
    r.findings.length = 3 ∧ r.summary.total_findings = 3 ∧
    ∃ f1 f2 f3, r.findings = [f1, f2, f3] ∧
      f1.name = "Keychain Status Analysis" ∧
      f2.name = "Timestamp Validation" ∧
      f3.name = "Backup Activity Analysis" := by
  obtain ⟨f1, f2, f3, s1, s2, s3, h1, h2, h3, hrep, hst⟩ :=
    analyze_all_ok ts data st r st2 h
  obtain ⟨c, uv, hres1, hs1⟩ := analyze_keychain_status_ok data 0 s1 f1 h1
  obtain ⟨es, hres2, hs2⟩ := analyze_timestamps_ok data s1 s2 f2 h2
  obtain ⟨fired, lb, vp, hres3, hs3⟩ := analyze_backup_metadata_ok data s2 s3 f3 h3
  subst hrep
  refine ⟨rfl, rfl, f1, f2, f3, rfl, ?_, ?_, ?_⟩
  · rw [hres1]
  · rw [hres2]
  · rw [hres3]; cases fired <;> rfl

/-- C9 witness: the empty snapshot still produces three findings. -/
theorem C9_always_three_findings_witness :
    (mk_report "t" (findings_of emptySnap) (score_of emptySnap)).summary.total_findings = 3 :=
  (C9_always_three_findings "t" emptySnap initState
    (mk_report "t" (findings_of emptySnap) (score_of emptySnap))
    { findings := findings_of emptySnap, corruption_score := score_of emptySnap }
    rfl).2.1

/-- C10: each finding group's severity is `"none"` exactly when its issue
list is empty and `"high"` otherwise — never `"medium"` — and
`summary.high_severity_findings` counts exactly the groups with a non-empty
issue list. -/
theorem C10_group_severity_dichotomy (ts : String) (data : PyVal) (st : AnalyzerState)
    (r : Report) (st2 : AnalyzerState)
    (h : analyze_all ts data st = Except.ok (r, st2)) :
    (∀ f ∈ r.findings,
      (f.severity = "none" ↔ f.issues = []) ∧
      (f.severity = "high" ↔ f.issues ≠ []) ∧
      f.severity ≠ "medium") ∧
    r.summary.high_severity_findings =
      (r.findings.filter (fun f => !f.issues.isEmpty)).length := by
  obtain ⟨f1, f2, f3, s1, s2, s3, h1, h2, h3, hrep, hst⟩ :=
    analyze_all_ok ts data st r st2 h
  obtain ⟨c, uv, hres1, hs1⟩ := analyze_keychain_status_ok data 0 s1 f1 h1
  obtain ⟨es, hres2, hs2⟩ := analyze_timestamps_ok data s1 s2 f2 h2
  obtain ⟨fired, lb, vp, hres3, hs3⟩ := analyze_backup_metadata_ok data s2 s3 f3 h3
  subst hrep hres1 hres2 hres3
  cases c <;> cases fired <;> cases uv <;> cases es <;>
    simp [mk_report, circleIssue, viewIssue, epochIssue, backupIssue]

/-- C10 witness: at the all-signatures snapshot the high-severity count
equals the number of groups with non-empty issues. -/
theorem C10_group_severity_dichotomy_witness :
    (mk_report "t" (findings_of exampleSnap)
        (score_of exampleSnap)).summary.high_severity_findings =
      ((mk_report "t" (findings_of exampleSnap)
          (score_of exampleSnap)).findings.filter
        (fun f => !f.issues.isEmpty)).length :=
  (C10_group_severity_dichotomy "t" exampleSnap initState
    (mk_report "t" (findings_of exampleSnap) (score_of exampleSnap))
    { findings := findings_of exampleSnap, corruption_score := score_of exampleSnap }
    rfl).2
